import Mathlib

/-!
Verification development for the PlasmaScan MCP server (`src/index.ts`).

The development shallowly embeds the `PlasmaScanClient` component and the
configuration resolver. JavaScript strings are Lean `String`s; the JS string
primitives used by the source (`trim`, `toLowerCase`, `parseInt`) are modelled
as explicit list-of-character functions. The network is a transport parameter
(`Transport T`): a function from the query parameters of a request to the fetch
outcome, so each operation returns both its result and the list of requests it
issued. `JSON.parse` is an abstract parameter (`String → Except String A`),
since it is a JavaScript builtin external to the repository. Thrown
`PlasmaScanError`s become `Except.error`; the error's originating URL field is
not modelled (no property below concerns it), and detail payloads other than
the ABI parse failure are abstracted to markers.
-/

/-- Model of JavaScript `String.prototype.trim` on a character list: drop
whitespace from both ends. -/
def trimChars (l : List Char) : List Char :=
  ((l.dropWhile Char.isWhitespace).reverse.dropWhile Char.isWhitespace).reverse

/-- Model of JavaScript `String.prototype.trim`. -/
def jsTrim (s : String) : String := String.mk (trimChars s.data)

/-- Model of JavaScript `String.prototype.toLowerCase` (ASCII range). -/
def jsToLower (s : String) : String := String.mk (s.data.map Char.toLower)

/-- One character of the `[a-fA-F0-9]` regex class. -/
def isHexChar (c : Char) : Bool :=
  c.isDigit || ('a' ≤ c && c ≤ 'f') || ('A' ≤ c && c ≤ 'F')

/-- The regex `^0x[a-fA-F0-9]{40}$` from `requireAddress`. -/
def isValidAddress (s : String) : Bool :=
  match s.data with
  | '0' :: 'x' :: rest => rest.length == 40 && rest.all isHexChar
  | _ => false

/-- The regex `^0x[a-fA-F0-9]{64}$` from `requireTxHash`. -/
def isValidTxHash (s : String) : Bool :=
  match s.data with
  | '0' :: 'x' :: rest => rest.length == 64 && rest.all isHexChar
  | _ => false

/-- Numeric value of a decimal digit character. -/
def digitVal (c : Char) : Nat := c.toNat - 48

/-- The digit-scanning part of JavaScript `parseInt(_, 10)`: value of the
maximal leading run of decimal digits, or `none` when that run is empty. -/
def parseDigits (l : List Char) : Option Nat :=
  let ds := l.takeWhile Char.isDigit
  if ds.isEmpty then none
  else some (ds.foldl (fun a c => a * 10 + digitVal c) 0)

/-- Model of JavaScript `Number.parseInt(s, 10)`: skip leading whitespace, an
optional sign, then read the maximal run of decimal digits; `none` models
`NaN`. The value is kept as an exact integer rather than rounded to a
binary64 float; `jsDoubleFinite` below accounts for the overflow to
`Infinity`, the one observable consequence of the float representation here. -/
def parseIntJs (s : String) : Option Int :=
  match s.data.dropWhile Char.isWhitespace with
  | [] => none
  | c :: rest =>
    if c = '-' then (parseDigits rest).map (fun n => -(n : Int))
    else if c = '+' then (parseDigits rest).map (fun n => (n : Int))
    else (parseDigits (c :: rest)).map (fun n => (n : Int))

/-- Whether an exact integer produced by `parseInt` denotes a finite binary64
number, i.e. whether `Number.isFinite` holds of it: magnitudes at or above
`2^1024 - 2^970` round to `Infinity`. -/
def jsDoubleFinite (n : Int) : Bool := decide (n.natAbs < 2 ^ 1024 - 2 ^ 970)

/-- `DEFAULT_TIMEOUT_MS` from `config.ts`. -/
def DEFAULT_TIMEOUT_MS : Int := 15000

/-- The timeout resolution in `config.ts`:
`Number.isFinite(parsed) ? Math.max(1000, parsed) : DEFAULT_TIMEOUT_MS`
applied to `Number.parseInt(input, 10)`. -/
def resolveTimeoutMs (input : String) : Int :=
  match parseIntJs input with
  | none => DEFAULT_TIMEOUT_MS
  | some n => if jsDoubleFinite n then max 1000 n else DEFAULT_TIMEOUT_MS

/-- The `PlasmaScanErrorCode` union from `plasmascanClient.ts`. -/
inductive PlasmaScanErrorCode where
  | HTTP_ERROR
  | API_ERROR
  | NOT_FOUND
  | UNVERIFIED_CONTRACT
  | INVALID_RESPONSE
deriving DecidableEq

/-- The `details` payload attached to a `PlasmaScanError`. In the source it is
an `unknown`; only the ABI parse failure is ever inspected by a property, so
the other carriers are abstracted to markers. -/
inductive ErrDetails where
  | parseFailure (msg : String)
  | rawText (s : String)
  | httpInfo (status : Nat) (statusText : String)
  | payloadDetails
  | causeDetails
deriving DecidableEq

/-- `PlasmaScanError` without its URL field (no property concerns the URL). -/
structure PlasmaScanError where
  message : String
  code : PlasmaScanErrorCode
  details : Option ErrDetails := none
deriving DecidableEq

/-- The Etherscan-style response envelope `{status, message?, result}`. -/
structure Envelope (T : Type) where
  status : String
  message : Option String := none
  result : T
deriving DecidableEq

/-- Outcome of one `fetch` call as observed by `request`: a parsed envelope, a
non-2xx response, an abort by the timeout, or another thrown error. -/
inductive FetchOutcome (T : Type) where
  | success (env : Envelope T)
  | httpError (status : Nat) (statusText : String)
  | aborted
  | networkError (msg : String)
deriving DecidableEq

/-- The query parameters of one upstream GET request, in insertion order. -/
abbrev ApiRequest := List (String × String)

/-- The injectable fetch function, keyed by query parameters. -/
abbrev Transport (T : Type) := ApiRequest → FetchOutcome T

/-- An operation's outcome together with the requests it issued. -/
abbrev ClientResult (α : Type) := Except PlasmaScanError α × List ApiRequest

/-- A raw upstream record (`Record<string, string>`), as key/value pairs. -/
abbrev RawRecord := List (String × String)

/-- `isEmptyResult`: the envelope message, lowercased and trimmed, is one of
the two "nothing found" sentinels. -/
def isEmptyResult {T : Type} (payload : Envelope T) : Bool :=
  match payload.message with
  | none => false
  | some m =>
    let msg := jsTrim (jsToLower m)
    msg == "no records found" || msg == "no transactions found"

/-- The `message`-field fallback inside `extractErrorMessage`. -/
def messageFallback {T : Type} (payload : Envelope T) : String :=
  match payload.message with
  | some m => if (jsTrim m).length > 0 then m else "Unknown API error"
  | none => "Unknown API error"

/-- `extractErrorMessage`: prefer a non-blank string `result`, then a non-blank
envelope `message`, then a generic fallback. The `typeof result === "string"`
runtime test is supplied as `asString`, since `T` is a type parameter. -/
def extractErrorMessage {T : Type} (asString : T → Option String) (payload : Envelope T) : String :=
  match asString payload.result with
  | some s => if (jsTrim s).length > 0 then s else messageFallback payload
  | none => messageFallback payload

/-- The generic `request` procedure of `PlasmaScanClient`, applied to the
outcome of its single fetch: HTTP/timeout classification, then the
`status == "1"` success path, then the empty-result tolerance, then an
API-level error. -/
def request {T : Type} (asString : T → Option String) (outcome : FetchOutcome T)
    (allowZeroResult : Bool) : Except PlasmaScanError T :=
  match outcome with
  | .httpError status statusText =>
    .error ⟨("HTTP error " ++ toString status ++ " while calling PlasmaScan"),
      .HTTP_ERROR, some (.httpInfo status statusText)⟩
  | .aborted =>
    .error ⟨("PlasmaScan request timed out"), .HTTP_ERROR, some .causeDetails⟩
  | .networkError _ =>
    .error ⟨("Unexpected error while calling PlasmaScan"), .HTTP_ERROR, some .causeDetails⟩
  | .success payload =>
    if payload.status == "1" then .ok payload.result
    else if allowZeroResult && isEmptyResult payload then .ok payload.result
    else .error ⟨(extractErrorMessage asString payload), .API_ERROR, some .payloadDetails⟩

/-- `requireAddress`: trim, then test `^0x[a-fA-F0-9]{40}$`. -/
def requireAddress (address : String) : Except PlasmaScanError String :=
  let trimmed := jsTrim address
  if isValidAddress trimmed then .ok trimmed
  else .error ⟨("Invalid EVM address: " ++ address), .INVALID_RESPONSE, none⟩

/-- `requireTxHash`: trim, then test `^0x[a-fA-F0-9]{64}$`. -/
def requireTxHash (txHash : String) : Except PlasmaScanError String :=
  let trimmed := jsTrim txHash
  if isValidTxHash trimmed then .ok trimmed
  else .error ⟨("Invalid transaction hash: " ++ txHash), .INVALID_RESPONSE, none⟩

/-- `requirePositive` on an integer-valued page/offset argument. -/
def requirePositive (value : Int) : Except PlasmaScanError Int :=
  if value ≤ 0 then
    .error ⟨("Value must be a positive integer: " ++ toString value), .INVALID_RESPONSE, none⟩
  else .ok value

/-- The characters of the `/not verified/i` regex pattern. -/
def notVerifiedChars : List Char := ['n', 'o', 't', ' ', 'v', 'e', 'r', 'i', 'f', 'i', 'e', 'd']

/-- The `/not verified/i` substring test: case-insensitive containment. -/
def containsNotVerifiedCI (s : String) : Bool :=
  decide (notVerifiedChars <:+: s.data.map Char.toLower)

/-- `parseAbi`: reject a blank ABI, classify "not verified" text as an
unverified contract, otherwise JSON-parse the trimmed text and carry a parse
failure as details. `jsonParse` abstracts the `JSON.parse` builtin. -/
def parseAbi {A : Type} (jsonParse : String → Except String A) (rawAbi : String)
    (address : String) : Except PlasmaScanError A :=
  let trimmed := jsTrim rawAbi
  if trimmed == "" then
    .error ⟨("Empty ABI returned for " ++ address), .INVALID_RESPONSE, none⟩
  else if containsNotVerifiedCI trimmed then
    .error ⟨("Contract " ++ address ++ " is not verified"), .UNVERIFIED_CONTRACT,
      some (.rawText rawAbi)⟩
  else
    match jsonParse trimmed with
    | .ok value => .ok value
    | .error e =>
      .error ⟨("Failed to parse ABI for " ++ address), .INVALID_RESPONSE,
        some (.parseFailure e)⟩

/-- Truthiness of an optional JavaScript string: `undefined` and `""` are
falsy. Models the `...(x ? { field: x } : {})` spread pattern. -/
def truthyStr (o : Option String) : Option String :=
  match o with
  | some s => if s == "" then none else some s
  | none => none

/-- The nullish-coalescing operator `??` on optional values. -/
def jsOr {α : Type} (a b : Option α) : Option α :=
  match a with
  | some x => some x
  | none => b

/-- Result shape of `getContractAbi`; `A` is the type of parsed JSON. -/
structure ContractAbiResult (A : Type) where
  address : String
  abi : A
deriving DecidableEq

/-- `getContractAbi`: validate the address, fetch `contract`/`getabi` with
empty results not tolerated, then parse the ABI text. -/
def getContractAbi {A : Type} (jsonParse : String → Except String A)
    (tr : Transport String) (address : String) : ClientResult (ContractAbiResult A) :=
  match requireAddress address with
  | .error e => (.error e, [])
  | .ok trimmedAddress =>
    let req : ApiRequest :=
      [("module", "contract"), ("action", "getabi"), ("address", trimmedAddress)]
    match request some (tr req) false with
    | .error e => (.error e, [req])
    | .ok result =>
      match parseAbi jsonParse result trimmedAddress with
      | .error e => (.error e, [req])
      | .ok abi => (.ok ⟨trimmedAddress, abi⟩, [req])

/-- One element of the `getsourcecode` result array
(`ContractSourceCodePayload`); fields beyond the two the code destructures
specially are kept as a raw mapping. -/
structure ContractSourcePayload where
  SourceCode : String
  ABI : String
  ContractName : Option String := none
  CompilerVersion : Option String := none
  extra : RawRecord := []
deriving DecidableEq

/-- Result shape of `getContractSourceCode`. -/
structure ContractSourceCodeResult (A : Type) where
  address : String
  sourceCode : String
  abi : A
  contractName : Option String := none
  compilerVersion : Option String := none
  metadata : RawRecord := []
deriving DecidableEq

/-- The metadata mapping built from every payload entry other than
`SourceCode` and `ABI`. -/
def payloadMetadata (first : ContractSourcePayload) : RawRecord :=
  (match first.ContractName with
   | some n => [("ContractName", n)]
   | none => [])
    ++ (match first.CompilerVersion with
        | some v => [("CompilerVersion", v)]
        | none => [])
    ++ first.extra

/-- `getContractSourceCode`: validate, fetch `contract`/`getsourcecode`
(empty results not tolerated), require a first array element, parse its ABI,
and reshape. -/
def getContractSourceCode {A : Type} (jsonParse : String → Except String A)
    (tr : Transport (List ContractSourcePayload)) (address : String) :
    ClientResult (ContractSourceCodeResult A) :=
  match requireAddress address with
  | .error e => (.error e, [])
  | .ok trimmedAddress =>
    let req : ApiRequest :=
      [("module", "contract"), ("action", "getsourcecode"), ("address", trimmedAddress)]
    match request (fun _ => none) (tr req) false with
    | .error e => (.error e, [req])
    | .ok result =>
      match result with
      | [] =>
        (.error ⟨("Empty response received while fetching source code"),
          .INVALID_RESPONSE, some .payloadDetails⟩, [req])
      | first :: _ =>
        match parseAbi jsonParse first.ABI trimmedAddress with
        | .error e => (.error e, [req])
        | .ok abi =>
          (.ok { address := trimmedAddress, sourceCode := first.SourceCode, abi := abi,
                 contractName := truthyStr first.ContractName,
                 compilerVersion := truthyStr first.CompilerVersion,
                 metadata := payloadMetadata first }, [req])

/-- `ContractCreationInfo` records. -/
structure ContractCreationInfo where
  contractAddress : String
  contractCreator : String
  txHash : String
deriving DecidableEq

/-- The `addresses.map((addr) => this.requireAddress(addr))` loop of
`getContractCreation`: validate each address in order, propagating the first
thrown error. -/
def requireAddresses : List String → Except PlasmaScanError (List String)
  | [] => .ok []
  | a :: rest =>
    match requireAddress a with
    | .error e => .error e
    | .ok t =>
      match requireAddresses rest with
      | .error e => .error e
      | .ok ts => .ok (t :: ts)

/-- `getContractCreation`: empty input short-circuits to an empty list, more
than 5 addresses is rejected, otherwise each address is validated and one
`contract`/`getcontractcreation` request is issued with the comma-joined
list; empty results are tolerated and `result ?? []` is returned. -/
def getContractCreation (tr : Transport (Option (List ContractCreationInfo)))
    (addresses : List String) : ClientResult (List ContractCreationInfo) :=
  if addresses.length == 0 then (.ok [], [])
  else if addresses.length > 5 then
    (.error ⟨("The getcontractcreation endpoint accepts up to 5 addresses per request"),
      .INVALID_RESPONSE, none⟩, [])
  else
    match requireAddresses addresses with
    | .error e => (.error e, [])
    | .ok normalizedAddresses =>
      let req : ApiRequest :=
        [("module", "contract"), ("action", "getcontractcreation"),
         ("contractaddresses", String.intercalate (",") normalizedAddresses)]
      match request (fun _ => none) (tr req) true with
      | .error e => (.error e, [req])
      | .ok result => (.ok (result.getD []), [req])

/-- Upstream payload of `transaction`/`getstatus`. -/
structure TransactionStatusPayload where
  status : String
  message : Option String := none
deriving DecidableEq

/-- Result shape of the two transaction status operations. -/
structure TransactionStatusResult where
  status : String
  message : Option String := none
deriving DecidableEq

/-- `getTransactionStatus`: validate the hash, fetch `transaction`/`getstatus`
with empty results not tolerated, and keep a truthy `message`. -/
def getTransactionStatus (tr : Transport TransactionStatusPayload) (txHash : String) :
    ClientResult TransactionStatusResult :=
  match requireTxHash txHash with
  | .error e => (.error e, [])
  | .ok hash =>
    let req : ApiRequest := [("module", "transaction"), ("action", "getstatus"), ("txhash", hash)]
    match request (fun _ => none) (tr req) false with
    | .error e => (.error e, [req])
    | .ok result =>
      (.ok { status := result.status, message := truthyStr result.message }, [req])

/-- Upstream payload of `transaction`/`gettxreceiptstatus`. -/
structure TransactionReceiptStatusPayload where
  status : String
deriving DecidableEq

/-- `getTransactionReceiptStatus`: validate the hash and fetch
`transaction`/`gettxreceiptstatus` with empty results not tolerated. -/
def getTransactionReceiptStatus (tr : Transport TransactionReceiptStatusPayload)
    (txHash : String) : ClientResult TransactionStatusResult :=
  match requireTxHash txHash with
  | .error e => (.error e, [])
  | .ok hash =>
    let req : ApiRequest :=
      [("module", "transaction"), ("action", "gettxreceiptstatus"), ("txhash", hash)]
    match request (fun _ => none) (tr req) false with
    | .error e => (.error e, [req])
    | .ok result => (.ok { status := result.status, message := none }, [req])

/-- Result shape of `getTokenSupply`. -/
structure TokenSupplyResult where
  contractAddress : String
  totalSupply : String
deriving DecidableEq

/-- `getTokenSupply`: validate the address and fetch `stats`/`tokensupply`
with empty results not tolerated. -/
def getTokenSupply (tr : Transport String) (contractAddress : String) :
    ClientResult TokenSupplyResult :=
  match requireAddress contractAddress with
  | .error e => (.error e, [])
  | .ok address =>
    let req : ApiRequest :=
      [("module", "stats"), ("action", "tokensupply"), ("contractaddress", address)]
    match request some (tr req) false with
    | .error e => (.error e, [req])
    | .ok totalSupply => (.ok ⟨address, totalSupply⟩, [req])

/-- Result shape of `getTokenBalance`. -/
structure TokenBalanceResult where
  contractAddress : String
  accountAddress : String
  balance : String
  tag : String
deriving DecidableEq

/-- `getTokenBalance`: validate both addresses (contract first) and fetch
`account`/`tokenbalance` with empty results not tolerated. -/
def getTokenBalance (tr : Transport String) (contractAddress accountAddress : String)
    (tag : String) : ClientResult TokenBalanceResult :=
  match requireAddress contractAddress with
  | .error e => (.error e, [])
  | .ok tokenAddress =>
    match requireAddress accountAddress with
    | .error e => (.error e, [])
    | .ok holder =>
      let req : ApiRequest :=
        [("module", "account"), ("action", "tokenbalance"),
         ("contractaddress", tokenAddress), ("address", holder), ("tag", tag)]
      match request some (tr req) false with
      | .error e => (.error e, [req])
      | .ok balance =>
        (.ok { contractAddress := tokenAddress, accountAddress := holder,
               balance := balance, tag := tag }, [req])

/-- The optional `page`/`offset` parameter block shared by the paginated
operations, in source order (page validated before offset). -/
def pageParams (page offset : Option Int) : Except PlasmaScanError (List (String × String)) :=
  match page with
  | some p =>
    match requirePositive p with
    | .error e => .error e
    | .ok v =>
      match offset with
      | some o =>
        match requirePositive o with
        | .error e => .error e
        | .ok w => .ok [("page", toString v), ("offset", toString w)]
      | none => .ok [("page", toString v)]
  | none =>
    match offset with
    | some o =>
      match requirePositive o with
      | .error e => .error e
      | .ok w => .ok [("offset", toString w)]
    | none => .ok []

/-- One `tokenholderlist` payload entry. -/
structure TokenHolderPayload where
  TokenHolderAddress : String
  TokenHolderQuantity : String
deriving DecidableEq

/-- One reshaped token holder entry. -/
structure TokenHolderEntry where
  holderAddress : String
  quantity : String
deriving DecidableEq

/-- `getTokenHolderList`: validate the address and pagination, fetch
`token`/`tokenholderlist` tolerating empty results, and rename the two
upstream fields. -/
def getTokenHolderList (tr : Transport (Option (List TokenHolderPayload)))
    (contractAddress : String) (page offset : Option Int) :
    ClientResult (List TokenHolderEntry) :=
  match requireAddress contractAddress with
  | .error e => (.error e, [])
  | .ok address =>
    match pageParams page offset with
    | .error e => (.error e, [])
    | .ok extraParams =>
      let req : ApiRequest :=
        [("module", "token"), ("action", "tokenholderlist"),
         ("contractaddress", address)] ++ extraParams
      match request (fun _ => none) (tr req) true with
      | .error e => (.error e, [req])
      | .ok result =>
        (.ok ((result.getD []).map (fun entry =>
          { holderAddress := entry.TokenHolderAddress,
            quantity := entry.TokenHolderQuantity })), [req])

/-- Result shape of `getTokenInfo`. -/
structure TokenInfoResult where
  contractAddress : String
  name : Option String := none
  symbol : Option String := none
  decimals : Option String := none
  totalSupply : Option String := none
  raw : RawRecord := []
deriving DecidableEq

/-- `getTokenInfo`: validate the address, fetch `token`/`tokeninfo` tolerating
empty results; an absent or empty result array yields `none`, otherwise the
first record is reshaped, with the queried address as the `contractAddress`
fallback. -/
def getTokenInfo (tr : Transport (Option (List RawRecord))) (contractAddress : String) :
    ClientResult (Option TokenInfoResult) :=
  match requireAddress contractAddress with
  | .error e => (.error e, [])
  | .ok address =>
    let req : ApiRequest :=
      [("module", "token"), ("action", "tokeninfo"), ("contractaddress", address)]
    match request (fun _ => none) (tr req) true with
    | .error e => (.error e, [req])
    | .ok result =>
      match result.getD [] with
      | [] => (.ok none, [req])
      | first :: _ =>
        let name := jsOr (first.lookup ("tokenName")) (first.lookup ("name"))
        let symbol := jsOr (first.lookup ("tokenSymbol")) (first.lookup ("symbol"))
        (.ok (some
          { contractAddress := (first.lookup ("contractAddress")).getD address,
            name := truthyStr name,
            symbol := truthyStr symbol,
            decimals := truthyStr (first.lookup ("decimals")),
            totalSupply := truthyStr (first.lookup ("totalSupply")),
            raw := first }), [req])

/-- One reshaped holding entry shared by the three holdings operations. -/
structure TokenHoldingEntry where
  contractAddress : Option String := none
  balance : String := "0"
  tokenName : Option String := none
  tokenSymbol : Option String := none
  raw : RawRecord := []
deriving DecidableEq

/-- The per-entry reshaping of the holdings operations: promoted balance with
the `TokenBalance`/`balance`/`"0"` fallback chain, truthy name/symbol with the
`tokenSymbol`/`symbol` fallback, and the raw record carried through.
`fallbackAddress` is `none` for the two holdings queries and the queried
contract for the NFT inventory. -/
def convertHolding (fallbackAddress : Option String) (entry : RawRecord) : TokenHoldingEntry :=
  let symbol := jsOr (entry.lookup ("tokenSymbol")) (entry.lookup ("symbol"))
  { contractAddress := jsOr (entry.lookup ("contractAddress")) fallbackAddress,
    balance := (jsOr (entry.lookup ("TokenBalance")) (entry.lookup ("balance"))).getD ("0"),
    tokenName := truthyStr (entry.lookup ("tokenName")),
    tokenSymbol := truthyStr symbol,
    raw := entry }

/-- `getAddressTokenHoldings`: validate, fetch `account`/`addresstokenbalance`
tolerating empty results, and reshape each record. -/
def getAddressTokenHoldings (tr : Transport (Option (List RawRecord))) (address : String)
    (page offset : Option Int) : ClientResult (List TokenHoldingEntry) :=
  match requireAddress address with
  | .error e => (.error e, [])
  | .ok account =>
    match pageParams page offset with
    | .error e => (.error e, [])
    | .ok extraParams =>
      let req : ApiRequest :=
        [("module", "account"), ("action", "addresstokenbalance"),
         ("address", account)] ++ extraParams
      match request (fun _ => none) (tr req) true with
      | .error e => (.error e, [req])
      | .ok result => (.ok ((result.getD []).map (convertHolding none)), [req])

/-- `getAddressNftHoldings`: validate, fetch `account`/`addresstokennftbalance`
tolerating empty results, and reshape each record. -/
def getAddressNftHoldings (tr : Transport (Option (List RawRecord))) (address : String)
    (page offset : Option Int) : ClientResult (List TokenHoldingEntry) :=
  match requireAddress address with
  | .error e => (.error e, [])
  | .ok account =>
    match pageParams page offset with
    | .error e => (.error e, [])
    | .ok extraParams =>
      let req : ApiRequest :=
        [("module", "account"), ("action", "addresstokennftbalance"),
         ("address", account)] ++ extraParams
      match request (fun _ => none) (tr req) true with
      | .error e => (.error e, [req])
      | .ok result => (.ok ((result.getD []).map (convertHolding none)), [req])

/-- `getAddressNftInventory`: validate holder then contract, fetch
`account`/`addresstokennftinventory` tolerating empty results, and reshape
each record with the queried contract as address fallback. -/
def getAddressNftInventory (tr : Transport (Option (List RawRecord)))
    (address contractAddress : String) (page offset : Option Int) :
    ClientResult (List TokenHoldingEntry) :=
  match requireAddress address with
  | .error e => (.error e, [])
  | .ok account =>
    match requireAddress contractAddress with
    | .error e => (.error e, [])
    | .ok contract =>
      match pageParams page offset with
      | .error e => (.error e, [])
      | .ok extraParams =>
        let req : ApiRequest :=
          [("module", "account"), ("action", "addresstokennftinventory"),
           ("address", account), ("contractaddress", contract)] ++ extraParams
        match request (fun _ => none) (tr req) true with
        | .error e => (.error e, [req])
        | .ok result =>
          (.ok ((result.getD []).map (convertHolding (some contract))), [req])

/-- The `ContractLogFilter` input of `getLogs`. -/
structure ContractLogFilter where
  address : Option String := none
  fromBlock : Option Int := none
  toBlock : Option Int := none
  topics : Option (List (Option String)) := none
  page : Option Int := none
  offset : Option Int := none
deriving DecidableEq

/-- One upstream log record (`ContractLogPayload`), all fields strings. -/
structure ContractLogPayload where
  address : String := ""
  blockNumber : String := ""
  data : String := ""
  logIndex : String := ""
  timeStamp : String := ""
  topics : List String := []
  transactionHash : String := ""
  transactionIndex : String := ""
deriving DecidableEq

/-- One reshaped log entry; `none` in a numeric field models `NaN`. -/
structure ContractLogEntry where
  address : String
  blockNumber : Option Int
  data : String
  logIndex : Option Int
  timeStamp : Option Int
  topics : List String
  transactionHash : String
  transactionIndex : Option Int
deriving DecidableEq

/-- The per-entry reshaping inside `getLogs`: four `parseInt(_, 10)` fields,
the rest carried through. -/
def convertLogEntry (entry : ContractLogPayload) : ContractLogEntry :=
  { address := entry.address,
    blockNumber := parseIntJs entry.blockNumber,
    data := entry.data,
    logIndex := parseIntJs entry.logIndex,
    timeStamp := parseIntJs entry.timeStamp,
    topics := entry.topics,
    transactionHash := entry.transactionHash,
    transactionIndex := parseIntJs entry.transactionIndex }

/-- An optional numeric query parameter (`typeof x === "number"` guard). -/
def numberParam (key : String) (v : Option Int) : List (String × String) :=
  match v with
  | some n => [(key, toString n)]
  | none => []

/-- The topic loop of `getLogs`: each non-null topic at position `i` becomes a
`topic{i}` parameter, null positions are skipped but still advance `i`. -/
def topicParams : List (Option String) → Nat → List (String × String)
  | [], _ => []
  | none :: rest, i => topicParams rest (i + 1)
  | some t :: rest, i => (("topic" ++ toString i), t) :: topicParams rest (i + 1)

/-- `getLogs`: a truthy `filter.address` is validated (so the empty string is
treated as absent), numeric bounds and pagination are stringified unvalidated,
topics are forwarded unvalidated, one `logs`/`getLogs` request is issued
tolerating empty results, and a non-array result is an invalid response. -/
def getLogs (tr : Transport (Option (List ContractLogPayload))) (filter : ContractLogFilter) :
    ClientResult (List ContractLogEntry) :=
  let addressStep : Except PlasmaScanError (List (String × String)) :=
    match filter.address with
    | some a => if a == "" then .ok [] else (requireAddress a).map (fun t => [("address", t)])
    | none => .ok []
  match addressStep with
  | .error e => (.error e, [])
  | .ok addressParams =>
    let topicList :=
      match filter.topics with
      | some ts => if ts.length == 0 then [] else topicParams ts 0
      | none => []
    let req : ApiRequest :=
      [("module", "logs"), ("action", "getLogs")] ++ addressParams
        ++ numberParam ("fromBlock") filter.fromBlock ++ numberParam ("toBlock") filter.toBlock
        ++ numberParam ("page") filter.page ++ numberParam ("offset") filter.offset
        ++ topicList
    match request (fun _ => none) (tr req) true with
    | .error e => (.error e, [req])
    | .ok result =>
      match result with
      | none =>
        (.error ⟨("Unexpected logs payload"), .INVALID_RESPONSE, some .payloadDetails⟩, [req])
      | some entries => (.ok (entries.map convertLogEntry), [req])

/-- Payload of the composite `plasmascan://token/{address}` resource read. -/
structure TokenResourcePayload where
  contractAddress : String
  totalSupply : Option String
  metadata : Option TokenInfoResult
deriving DecidableEq

/-- `buildTokenPayload` from `index.ts`. -/
def buildTokenPayload (address : String) (info : Option TokenInfoResult)
    (totalSupply : Option String) : TokenResourcePayload :=
  { contractAddress := address, totalSupply := totalSupply, metadata := info }

/-- The `.catch` attached to the token-supply sub-call of the token resource
handler: an API-level `PlasmaScanError` is swallowed into an absent supply,
anything else is rethrown. -/
def swallowSupplyFailure (res : Except PlasmaScanError TokenSupplyResult) :
    Except PlasmaScanError (Option TokenSupplyResult) :=
  match res with
  | .ok s => .ok (some s)
  | .error e => if e.code = .API_ERROR then .ok none else .error e

/-- The `plasmascan-token` resource handler: join the token-info sub-call and
the supply sub-call (the latter behind `swallowSupplyFailure`) and build the
payload with `supply?.totalSupply ?? null`. -/
def tokenResourceRead (trInfo : Transport (Option (List RawRecord)))
    (trSupply : Transport String) (address : String) :
    Except PlasmaScanError TokenResourcePayload :=
  match (getTokenInfo trInfo address).fst,
        swallowSupplyFailure (getTokenSupply trSupply address).fst with
  | .error e, _ => .error e
  | _, .error e => .error e
  | .ok info, .ok supply =>
    .ok (buildTokenPayload address info (supply.map (fun s => s.totalSupply)))

/-! Helper lemmas about the modelled JavaScript string primitives. -/

/-- Lowercasing fixes whitespace characters. -/
theorem toLower_of_ws (c : Char) (h : c.isWhitespace = true) : Char.toLower c = c := by
  simp only [Char.isWhitespace, Bool.or_eq_true, decide_eq_true_eq] at h
  rcases h with ((h | h) | h) | h <;> subst h <;> decide

/-- Lowercasing fixes all-whitespace character lists. -/
theorem map_toLower_of_ws (l : List Char) (h : ∀ c ∈ l, c.isWhitespace = true) :
    l.map Char.toLower = l := by
  induction l with
  | nil => rfl
  | cons c cs ih =>
    simp only [List.map_cons]
    rw [toLower_of_ws c (h c (List.mem_cons_self c cs)),
      ih (fun x hx => h x (List.mem_cons_of_mem c hx))]

/-- A decimal digit is not whitespace. -/
theorem isDigit_not_ws (c : Char) (h : c.isDigit = true) : c.isWhitespace = false := by
  cases hw : c.isWhitespace
  · rfl
  · simp only [Char.isWhitespace, Bool.or_eq_true, decide_eq_true_eq] at hw
    rcases hw with ((hw | hw) | hw) | hw <;> subst hw <;> simp at h

/-- A decimal digit is not the minus sign. -/
theorem isDigit_ne_neg (c : Char) (h : c.isDigit = true) : ¬ c = '-' := by
  intro he; subst he; simp at h

/-- A decimal digit is not the plus sign. -/
theorem isDigit_ne_pos (c : Char) (h : c.isDigit = true) : ¬ c = '+' := by
  intro he; subst he; simp at h

/-- Trimming decomposes a list into an all-whitespace prefix, the trimmed
core, and an all-whitespace suffix. -/
theorem trimChars_split (l : List Char) :
    ∃ a b, l = a ++ trimChars l ++ b ∧ (∀ c ∈ a, c.isWhitespace = true) ∧
      (∀ c ∈ b, c.isWhitespace = true) := by
  refine ⟨l.takeWhile Char.isWhitespace,
    ((l.dropWhile Char.isWhitespace).reverse.takeWhile Char.isWhitespace).reverse, ?_, ?_, ?_⟩
  · have hm : l.dropWhile Char.isWhitespace
        = trimChars l
          ++ ((l.dropWhile Char.isWhitespace).reverse.takeWhile Char.isWhitespace).reverse := by
      unfold trimChars
      conv_lhs => rw [← List.reverse_reverse (l.dropWhile Char.isWhitespace)]
      conv_lhs =>
        rw [← List.takeWhile_append_dropWhile Char.isWhitespace
          (l.dropWhile Char.isWhitespace).reverse]
      rw [List.reverse_append]
    conv_lhs => rw [← List.takeWhile_append_dropWhile Char.isWhitespace l, hm]
    rw [List.append_assoc]
  · exact fun c hc => List.mem_takeWhile_imp hc
  · exact fun c hc => List.mem_takeWhile_imp (List.mem_reverse.mp hc)

/-- An infix whose head is not whitespace survives removal of an
all-whitespace prefix of the ambient list. -/
theorem infix_strip_ws_left (a : List Char) {p rest : List Char} {c : Char} {cs : List Char}
    (hp : p = c :: cs) (hc : c.isWhitespace = false)
    (ha : ∀ x ∈ a, x.isWhitespace = true) (h : p <:+: a ++ rest) : p <:+: rest := by
  induction a with
  | nil => simpa using h
  | cons x xs ih =>
    rcases List.infix_cons_iff.mp (by simpa using h) with hpre | hinf
    · rw [hp] at hpre
      rcases List.cons_prefix_cons.mp hpre with ⟨hcx, -⟩
      rw [← hcx] at ha
      rw [ha c (List.mem_cons_self c xs)] at hc
      exact absurd hc (by simp)
    · exact ih (fun x hx => ha x (List.mem_cons_of_mem _ hx)) hinf

/-- An infix whose last character is not whitespace survives removal of an
all-whitespace suffix of the ambient list. -/
theorem infix_strip_ws_right (b : List Char) {p rest : List Char} {c : Char} {cs : List Char}
    (hp : p.reverse = c :: cs) (hc : c.isWhitespace = false)
    (hb : ∀ x ∈ b, x.isWhitespace = true) (h : p <:+: rest ++ b) : p <:+: rest := by
  have hrev : p.reverse <:+: b.reverse ++ rest.reverse := by
    have := List.reverse_infix.mpr h
    simpa [List.reverse_append] using this
  have := infix_strip_ws_left b.reverse hp hc
    (fun x hx => hb x (List.mem_reverse.mp hx)) hrev
  have := List.reverse_infix.mpr this
  simpa using this

/-- The "not verified" containment test survives trimming. -/
theorem containsNotVerifiedCI_jsTrim (s : String) (h : containsNotVerifiedCI s = true) :
    containsNotVerifiedCI (jsTrim s) = true := by
  simp only [containsNotVerifiedCI, decide_eq_true_eq] at h ⊢
  obtain ⟨a, b, hsplit, ha, hb⟩ := trimChars_split s.data
  have hmap : s.data.map Char.toLower
      = a ++ (trimChars s.data).map Char.toLower ++ b := by
    conv_lhs => rw [hsplit]
    simp only [List.map_append]
    rw [map_toLower_of_ws a ha, map_toLower_of_ws b hb]
  rw [hmap] at h
  have h1 : notVerifiedChars <:+: (trimChars s.data).map Char.toLower ++ b := by
    refine infix_strip_ws_left a (p := notVerifiedChars) rfl (by decide) ha ?_
    simpa [List.append_assoc] using h
  have h2 : notVerifiedChars <:+: (trimChars s.data).map Char.toLower :=
    infix_strip_ws_right b (p := notVerifiedChars) rfl (by decide) hb h1
  simpa [jsTrim] using h2

/-- The "not verified" containment test on the trimmed text implies the test
on the raw text. -/
theorem containsNotVerifiedCI_of_trim (s : String) (h : containsNotVerifiedCI (jsTrim s) = true) :
    containsNotVerifiedCI s = true := by
  simp only [containsNotVerifiedCI, decide_eq_true_eq] at h ⊢
  obtain ⟨a, b, hsplit, ha, hb⟩ := trimChars_split s.data
  have hmap : s.data.map Char.toLower
      = a ++ (trimChars s.data).map Char.toLower ++ b := by
    conv_lhs => rw [hsplit]
    simp only [List.map_append]
    rw [map_toLower_of_ws a ha, map_toLower_of_ws b hb]
  rw [hmap]
  exact (h.trans ⟨a, b, rfl⟩ : _)

/-- Text containing "not verified" is nonempty after trimming. -/
theorem jsTrim_ne_empty_of_contains (s : String) (h : containsNotVerifiedCI (jsTrim s) = true) :
    ¬ jsTrim s = "" := by
  simp only [containsNotVerifiedCI, decide_eq_true_eq] at h
  intro he
  rw [he] at h
  simp only [String.data] at h
  exact absurd (List.eq_nil_of_infix_nil (by simpa using h)) (by decide)

/-! Helper lemmas about the validators and the operations. -/

/-- Unfolding `requireAddress` on a valid (after trimming) input. -/
theorem requireAddress_valid (s : String) (h : isValidAddress (jsTrim s) = true) :
    requireAddress s = .ok (jsTrim s) := by
  unfold requireAddress
  simp [h]

/-- Unfolding `requireAddress` on an invalid (after trimming) input. -/
theorem requireAddress_invalid (s : String) (h : isValidAddress (jsTrim s) = false) :
    requireAddress s
      = .error ⟨("Invalid EVM address: " ++ s), .INVALID_RESPONSE, none⟩ := by
  unfold requireAddress
  simp [h]

/-- Unfolding `requireTxHash` on a valid (after trimming) input. -/
theorem requireTxHash_valid (s : String) (h : isValidTxHash (jsTrim s) = true) :
    requireTxHash s = .ok (jsTrim s) := by
  unfold requireTxHash
  simp [h]

/-- Unfolding `requireTxHash` on an invalid (after trimming) input. -/
theorem requireTxHash_invalid (s : String) (h : isValidTxHash (jsTrim s) = false) :
    requireTxHash s
      = .error ⟨("Invalid transaction hash: " ++ s), .INVALID_RESPONSE, none⟩ := by
  unfold requireTxHash
  simp [h]

/-- Checker result: an operation failed with the invalid-response
classification and issued no request. -/
def failsInvalidNoCall {α : Type} (r : ClientResult α) : Bool :=
  r.snd.isEmpty &&
    (match r.fst with
     | .error e => e.code == PlasmaScanErrorCode.INVALID_RESPONSE
     | .ok _ => false)

/-- The address-list loop fails with an invalid-response error as soon as one
member is invalid after trimming. -/
theorem requireAddresses_mem_invalid (addresses : List String) (s : String)
    (hs : s ∈ addresses) (hbad : isValidAddress (jsTrim s) = false) :
    ∃ e, requireAddresses addresses = .error e
      ∧ e.code = PlasmaScanErrorCode.INVALID_RESPONSE := by
  induction addresses with
  | nil => cases hs
  | cons a rest ih =>
    unfold requireAddresses
    cases hv : isValidAddress (jsTrim a) with
    | false =>
      rw [requireAddress_invalid a hv]
      exact ⟨_, rfl, rfl⟩
    | true =>
      rw [requireAddress_valid a hv]
      have hrest : s ∈ rest := by
        rcases List.mem_cons.mp hs with heq | hmem
        · subst heq; rw [hv] at hbad; cases hbad
        · exact hmem
      obtain ⟨e, he, hc⟩ := ih hrest
      rw [he]
      exact ⟨e, rfl, hc⟩

/-- The address-list loop trims every member when all are valid. -/
theorem requireAddresses_all_valid (addresses : List String)
    (h : ∀ a ∈ addresses, isValidAddress (jsTrim a) = true) :
    requireAddresses addresses = .ok (addresses.map jsTrim) := by
  induction addresses with
  | nil => rfl
  | cons a rest ih =>
    unfold requireAddresses
    rw [requireAddress_valid a (h a (List.mem_cons_self a rest)),
      ih (fun x hx => h x (List.mem_cons_of_mem a hx))]
    rfl

/-- The accumulator form of the digit fold, against the little-endian value
of the digit list. -/
theorem foldl_digitVal (ds : List Char) : ∀ a : Nat,
    ds.foldl (fun a c => a * 10 + digitVal c) a
      = a * 10 ^ ds.length + Nat.ofDigits 10 ((ds.map digitVal).reverse) := by
  induction ds with
  | nil => intro a; simp [Nat.ofDigits]
  | cons c rest ih =>
    intro a
    simp only [List.foldl_cons, List.map_cons, List.reverse_cons, List.length_cons]
    rw [ih (a * 10 + digitVal c), Nat.ofDigits_append]
    simp [Nat.ofDigits]
    ring

/-- `takeWhile` keeps a list all of whose elements pass the test. -/
theorem takeWhile_all {α : Type} (p : α → Bool) (l : List α) (h : ∀ c ∈ l, p c = true) :
    l.takeWhile p = l := by
  induction l with
  | nil => rfl
  | cons a rest ih =>
    rw [List.takeWhile_cons, h a (List.mem_cons_self a rest),
      ih (fun x hx => h x (List.mem_cons_of_mem a hx))]
    rfl

/-- The digit fold ignores leading zero characters. -/
theorem foldl_digitVal_replicate_zero (pad : Nat) :
    (List.replicate pad '0').foldl (fun a c => a * 10 + digitVal c) 0 = 0 := by
  induction pad with
  | zero => rfl
  | succ n ih => simpa [List.replicate_succ, digitVal] using ih

/-- `parseIntJs` on a zero-padded all-digit string returns the little-endian
value of the digit list, independent of the padding. -/
theorem parseIntJs_padded (pad : Nat) (ds : List Char) (h1 : ¬ ds = [])
    (h2 : ∀ c ∈ ds, c.isDigit = true) :
    parseIntJs (String.mk (List.replicate pad '0' ++ ds))
      = some ((Nat.ofDigits 10 ((ds.map digitVal).reverse) : Nat) : Int) := by
  have hall : ∀ c ∈ List.replicate pad '0' ++ ds, c.isDigit = true := by
    intro c hc
    rcases List.mem_append.mp hc with hc | hc
    · rw [(List.mem_replicate.mp hc).2]; decide
    · exact h2 c hc
  obtain ⟨c, rest, hl⟩ : ∃ c rest, List.replicate pad '0' ++ ds = c :: rest := by
    cases hd : List.replicate pad '0' ++ ds with
    | nil =>
      rcases List.append_eq_nil.mp hd with ⟨-, hnil⟩
      exact absurd hnil h1
    | cons c rest => exact ⟨c, rest, rfl⟩
  have hcdig : c.isDigit = true := hall c (by rw [hl]; exact List.mem_cons_self c rest)
  have hdrop : (List.replicate pad '0' ++ ds).dropWhile Char.isWhitespace
      = c :: rest := by
    rw [hl, List.dropWhile_cons, isDigit_not_ws c hcdig]
    simp
  unfold parseIntJs
  simp only [String.data]
  rw [hdrop]
  simp only [if_neg (isDigit_ne_neg c hcdig), if_neg (isDigit_ne_pos c hcdig)]
  rw [← hl]
  unfold parseDigits
  rw [takeWhile_all Char.isDigit _ hall]
  have hne : (List.replicate pad '0' ++ ds).isEmpty = false := by
    rw [hl]; rfl
  simp only [hne, Bool.false_eq_true, if_false, List.foldl_append,
    foldl_digitVal_replicate_zero]
  rw [foldl_digitVal ds 0]
  simp

/-- A non-null topic at position `i` of the topic list contributes a
`topic{k+i}` query parameter when numbering starts at `k`. -/
theorem topicParams_mem (ts : List (Option String)) : ∀ (i k : Nat) (t : String),
    ts[i]? = some (some t) → (("topic" ++ toString (k + i)), t) ∈ topicParams ts k := by
  induction ts with
  | nil => intro i k t h; simp at h
  | cons o rest ih =>
    intro i k t h
    cases i with
    | zero =>
      rw [List.getElem?_cons_zero] at h
      cases h
      simp only [topicParams, Nat.add_zero]
      exact List.mem_cons_self _ _
    | succ i =>
      rw [List.getElem?_cons_succ] at h
      have := ih i (k + 1) t h
      have harith : k + (i + 1) = (k + 1) + i := by omega
      rw [harith]
      cases o with
      | none => simpa [topicParams] using this
      | some u => exact List.mem_cons_of_mem _ this

/-- C3: `getContractCreation` with no addresses returns an empty list and
issues no request; with six or more addresses it fails with the
invalid-response classification and issues no request; with one to five
addresses, all valid, it issues exactly one request whose
`contractaddresses` parameter is the comma-joined (trimmed) address list. -/
theorem getContractCreation_request_shape (tr : Transport (Option (List ContractCreationInfo)))
    (addresses : List String) :
    (addresses = [] → getContractCreation tr addresses = (.ok [], []))
    ∧ (6 ≤ addresses.length → failsInvalidNoCall (getContractCreation tr addresses) = true)
    ∧ (1 ≤ addresses.length → addresses.length ≤ 5 →
        (∀ a ∈ addresses, isValidAddress (jsTrim a) = true) →
        (getContractCreation tr addresses).snd
          = [[("module", "contract"), ("action", "getcontractcreation"),
              ("contractaddresses", String.intercalate (",") (addresses.map jsTrim))]]) := by
  refine ⟨?_, ?_, ?_⟩
  · intro h; subst h; rfl
  · intro h6
    unfold getContractCreation
    have hlen0 : (addresses.length == 0) = false := by
      simp only [beq_eq_false_iff_ne, ne_eq]; omega
    have hlen5 : addresses.length > 5 := by omega
    simp only [hlen0, Bool.false_eq_true, if_false, if_pos hlen5]
    rfl
  · intro h1 h5 hvalid
    unfold getContractCreation
    have hlen0 : (addresses.length == 0) = false := by
      simp only [beq_eq_false_iff_ne, ne_eq]; omega
    have hlen5 : ¬ addresses.length > 5 := by omega
    simp only [hlen0, Bool.false_eq_true, if_false, if_neg hlen5,
      requireAddresses_all_valid addresses hvalid]
    cases request (fun _ => none)
        (tr [("module", "contract"), ("action", "getcontractcreation"),
             ("contractaddresses", String.intercalate (",") (addresses.map jsTrim))]) true with
    | error e => rfl
    | ok r => rfl

/-- Witness for C3 at concrete inputs: zero, six, and one valid address. -/
theorem getContractCreation_request_shape_witness :
    (getContractCreation (fun _ => .success ⟨"1", none, some []⟩) [] = (.ok [], []))
    ∧ failsInvalidNoCall (getContractCreation (fun _ => .success ⟨"1", none, some []⟩)
        ["0xaaaaaaaaaaaaaaaaaaaaaaaaaaaaaaaaaaaaaaaa",
         "0xaaaaaaaaaaaaaaaaaaaaaaaaaaaaaaaaaaaaaaaa",
         "0xaaaaaaaaaaaaaaaaaaaaaaaaaaaaaaaaaaaaaaaa",
         "0xaaaaaaaaaaaaaaaaaaaaaaaaaaaaaaaaaaaaaaaa",
         "0xaaaaaaaaaaaaaaaaaaaaaaaaaaaaaaaaaaaaaaaa",
         "0xaaaaaaaaaaaaaaaaaaaaaaaaaaaaaaaaaaaaaaaa"]) = true
    ∧ (getContractCreation (fun _ => .success ⟨"1", none, some []⟩)
        ["0xaaaaaaaaaaaaaaaaaaaaaaaaaaaaaaaaaaaaaaaa"]).snd
        = [[("module", "contract"), ("action", "getcontractcreation"),
            ("contractaddresses", String.intercalate (",")
              (["0xaaaaaaaaaaaaaaaaaaaaaaaaaaaaaaaaaaaaaaaa"].map jsTrim))]] :=
  ⟨(getContractCreation_request_shape _ []).1 rfl,
   (getContractCreation_request_shape _ _).2.1 (by decide),
   (getContractCreation_request_shape _ _).2.2 (by decide) (by decide) (by decide)⟩

/-- C4: a status-"0" envelope whose message matches a no-records sentinel
case-insensitively is returned as the (empty) success value by an
empty-tolerant call, and is an API_ERROR failure for a non-tolerant call. -/
theorem request_zero_sentinel {T : Type} (asString : T → Option String) (env : Envelope T)
    (m : String) (h0 : env.status = "0") (hm : env.message = some m)
    (hs : jsToLower m = "no records found" ∨ jsToLower m = "no transactions found") :
    request asString (.success env) true = .ok env.result
    ∧ ∃ e, request asString (.success env) false = .error e
        ∧ e.code = PlasmaScanErrorCode.API_ERROR := by
  have hstat : (env.status == "1") = false := by rw [h0]; rfl
  have hempty : isEmptyResult env = true := by
    simp only [isEmptyResult, hm]
    rcases hs with hs | hs <;> rw [hs] <;> decide
  constructor
  · simp [request, hstat, hempty]
  · refine ⟨⟨extractErrorMessage asString env, .API_ERROR, some .payloadDetails⟩, ?_, rfl⟩
    simp [request, hstat]

/-- Witness for C4 at a concrete envelope with a mixed-case sentinel. -/
theorem request_zero_sentinel_witness :
    request (fun s => some s)
        (.success (⟨"0", some "No Records Found", "x"⟩ : Envelope String)) true = .ok "x"
    ∧ ∃ e, request (fun s => some s)
        (.success (⟨"0", some "No Records Found", "x"⟩ : Envelope String)) false = .error e
        ∧ e.code = PlasmaScanErrorCode.API_ERROR :=
  request_zero_sentinel (fun s => some s) _ "No Records Found" rfl rfl (Or.inl (by decide))

/-- C7: the resolved timeout is the default 15000 when parsing fails or the
parsed value is not finite, the parsed value clamped to a 1000 floor
otherwise, and at least 1000 in every case. -/
theorem resolveTimeoutMs_spec (input : String) :
    (parseIntJs input = none → resolveTimeoutMs input = 15000)
    ∧ (∀ n, parseIntJs input = some n → jsDoubleFinite n = true →
        resolveTimeoutMs input = max 1000 n)
    ∧ (∀ n, parseIntJs input = some n → jsDoubleFinite n = false →
        resolveTimeoutMs input = 15000)
    ∧ 1000 ≤ resolveTimeoutMs input := by
  refine ⟨?_, ?_, ?_, ?_⟩
  · intro hp
    simp only [resolveTimeoutMs, hp]
    rfl
  · intro n hp hfin
    simp only [resolveTimeoutMs, hp, hfin, if_true]
  · intro n hp hfin
    simp only [resolveTimeoutMs, hp, hfin]
    rfl
  · cases hp : parseIntJs input with
    | none =>
      simp only [resolveTimeoutMs, hp]
      norm_num [DEFAULT_TIMEOUT_MS]
    | some n =>
      simp only [resolveTimeoutMs, hp]
      cases hfin : jsDoubleFinite n with
      | true =>
        simp only [hfin, if_true]
        exact le_max_left 1000 n
      | false =>
        norm_num [DEFAULT_TIMEOUT_MS]

set_option maxRecDepth 10000 in
/-- Witness for C7: a parsable input clamps, an unparsable input defaults. -/
theorem resolveTimeoutMs_spec_witness :
    resolveTimeoutMs "42" = max 1000 42
    ∧ resolveTimeoutMs "abc" = 15000
    ∧ 1000 ≤ resolveTimeoutMs "42" :=
  ⟨(resolveTimeoutMs_spec "42").2.1 42 (by decide) (by decide),
   (resolveTimeoutMs_spec "abc").1 (by decide),
   (resolveTimeoutMs_spec "42").2.2.2⟩

/-- A status-"1" envelope is returned as success whatever the tolerance. -/
theorem request_status_one {T : Type} (asString : T → Option String) (m : Option String)
    (r : T) (allow : Bool) :
    request asString (.success ⟨"1", m, r⟩) allow = .ok r := rfl

/-- A sentinel message makes `isEmptyResult` hold, whatever the status. -/
theorem sentinel_isEmptyResult {T : Type} (status : String) (msg : String) (r : T)
    (hs : jsToLower msg = "no records found" ∨ jsToLower msg = "no transactions found") :
    isEmptyResult (⟨status, some msg, r⟩ : Envelope T) = true := by
  simp only [isEmptyResult]
  rcases hs with hs | hs <;> rw [hs] <;> decide

/-- An empty-tolerant request returns the result of any envelope that
`isEmptyResult` accepts. -/
theorem request_allowZero_of_empty {T : Type} (asString : T → Option String) (env : Envelope T)
    (h : isEmptyResult env = true) :
    request asString (.success env) true = .ok env.result := by
  unfold request
  cases hst : env.status == "1" <;> simp [hst, h]

/-- C8: `getLogs` reshapes every returned entry with `parseInt` on the four
numeric string fields: a zero-padded decimal string parses to its numeric
value regardless of padding, and a malformed field becomes `NaN` (modelled
`none`) while the operation still succeeds. -/
theorem getLogs_numeric_parsing :
    (∀ (tr : Transport (Option (List ContractLogPayload))) (entries : List ContractLogPayload)
        (m : Option String),
      tr [("module", "logs"), ("action", "getLogs")] = .success ⟨"1", m, some entries⟩ →
      getLogs tr {} = (.ok (entries.map convertLogEntry),
        [[("module", "logs"), ("action", "getLogs")]]))
    ∧ (∀ entry, (convertLogEntry entry).blockNumber = parseIntJs entry.blockNumber
        ∧ (convertLogEntry entry).logIndex = parseIntJs entry.logIndex
        ∧ (convertLogEntry entry).timeStamp = parseIntJs entry.timeStamp
        ∧ (convertLogEntry entry).transactionIndex = parseIntJs entry.transactionIndex)
    ∧ (∀ (pad : Nat) (ds : List Char) (n : Nat), ¬ ds = [] → (∀ c ∈ ds, c.isDigit = true) →
        Nat.ofDigits 10 ((ds.map digitVal).reverse) = n →
        parseIntJs (String.mk (List.replicate pad '0' ++ ds)) = some (n : Int))
    ∧ (∀ s, parseIntJs s = none → ∀ entry : ContractLogPayload, entry.blockNumber = s →
        (convertLogEntry entry).blockNumber = none) := by
  refine ⟨?_, ?_, ?_, ?_⟩
  · intro tr entries m htr
    simp only [getLogs, numberParam, List.append_nil, htr, request_status_one]
  · intro entry
    exact ⟨rfl, rfl, rfl, rfl⟩
  · intro pad ds n h1 h2 hv
    rw [parseIntJs_padded pad ds h1 h2, hv]
  · intro s hs entry he
    simp [convertLogEntry, he, hs]

/-- Witness for C8: a concrete transport returning one entry with a
zero-padded block number and a malformed transaction index. -/
theorem getLogs_numeric_parsing_witness :
    getLogs (fun _ => .success ⟨"1", none,
        some [{ blockNumber := "007", logIndex := "1", timeStamp := "12",
                transactionIndex := "xyz" }]⟩) {}
      = (.ok ([({ blockNumber := "007", logIndex := "1", timeStamp := "12",
                  transactionIndex := "xyz" } : ContractLogPayload)].map convertLogEntry),
          [[("module", "logs"), ("action", "getLogs")]])
    ∧ parseIntJs (String.mk (List.replicate 2 '0' ++ ['4', '2'])) = some (42 : Int)
    ∧ (convertLogEntry { blockNumber := "xyz" }).blockNumber = none :=
  ⟨(getLogs_numeric_parsing).1 _ _ none rfl,
   (getLogs_numeric_parsing).2.2.1 2 ['4', '2'] 42 (by decide) (by decide) (by decide),
   (getLogs_numeric_parsing).2.2.2 "xyz" (by decide) _ rfl⟩

/-- C9: in the three holdings operations the promoted balance of each output
entry is the upstream `TokenBalance` value when that key is present, else the
`balance` value when present, else the string "0"; each operation maps this
reshaping over every returned record. -/
theorem holdings_balance_fallback :
    (∀ (fallbackAddress : Option String) (entry : RawRecord),
      (entry.lookup ("TokenBalance") = none → entry.lookup ("balance") = none →
        (convertHolding fallbackAddress entry).balance = "0")
      ∧ (∀ v, entry.lookup ("TokenBalance") = some v →
          (convertHolding fallbackAddress entry).balance = v)
      ∧ (∀ v, entry.lookup ("TokenBalance") = none → entry.lookup ("balance") = some v →
          (convertHolding fallbackAddress entry).balance = v))
    ∧ (∀ (tr : Transport (Option (List RawRecord))) (address : String)
        (entries : List RawRecord) (m : Option String),
        isValidAddress (jsTrim address) = true →
        tr [("module", "account"), ("action", "addresstokenbalance"),
            ("address", jsTrim address)] = .success ⟨"1", m, some entries⟩ →
        getAddressTokenHoldings tr address none none
          = (.ok (entries.map (convertHolding none)),
              [[("module", "account"), ("action", "addresstokenbalance"),
                ("address", jsTrim address)]]))
    ∧ (∀ (tr : Transport (Option (List RawRecord))) (address : String)
        (entries : List RawRecord) (m : Option String),
        isValidAddress (jsTrim address) = true →
        tr [("module", "account"), ("action", "addresstokennftbalance"),
            ("address", jsTrim address)] = .success ⟨"1", m, some entries⟩ →
        getAddressNftHoldings tr address none none
          = (.ok (entries.map (convertHolding none)),
              [[("module", "account"), ("action", "addresstokennftbalance"),
                ("address", jsTrim address)]]))
    ∧ (∀ (tr : Transport (Option (List RawRecord))) (address contractAddress : String)
        (entries : List RawRecord) (m : Option String),
        isValidAddress (jsTrim address) = true →
        isValidAddress (jsTrim contractAddress) = true →
        tr [("module", "account"), ("action", "addresstokennftinventory"),
            ("address", jsTrim address), ("contractaddress", jsTrim contractAddress)]
          = .success ⟨"1", m, some entries⟩ →
        getAddressNftInventory tr address contractAddress none none
          = (.ok (entries.map (convertHolding (some (jsTrim contractAddress)))),
              [[("module", "account"), ("action", "addresstokennftinventory"),
                ("address", jsTrim address), ("contractaddress", jsTrim contractAddress)]])) := by
  refine ⟨?_, ?_, ?_, ?_⟩
  · intro fallbackAddress entry
    refine ⟨?_, ?_, ?_⟩
    · intro h1 h2
      simp [convertHolding, jsOr, h1, h2]
    · intro v h1
      simp [convertHolding, jsOr, h1]
    · intro v h1 h2
      simp [convertHolding, jsOr, h1, h2]
  · intro tr address entries m hv htr
    simp only [getAddressTokenHoldings, requireAddress_valid address hv, pageParams,
      List.append_nil, htr, request_status_one]
    rfl
  · intro tr address entries m hv htr
    simp only [getAddressNftHoldings, requireAddress_valid address hv, pageParams,
      List.append_nil, htr, request_status_one]
    rfl
  · intro tr address contractAddress entries m hv hc htr
    simp only [getAddressNftInventory, requireAddress_valid address hv,
      requireAddress_valid contractAddress hc, pageParams,
      List.append_nil, htr, request_status_one]
    rfl

/-- Witness for C9: one record with neither balance key, one with
`TokenBalance`, one with only `balance`, and a concrete holdings call. -/
theorem holdings_balance_fallback_witness :
    (convertHolding none [("tokenName", "T")]).balance = "0"
    ∧ (convertHolding none [("TokenBalance", "7"), ("balance", "9")]).balance = "7"
    ∧ (convertHolding none [("balance", "9")]).balance = "9"
    ∧ getAddressTokenHoldings
        (fun _ => .success ⟨"1", none, some [[("balance", "9")]]⟩)
        "0xaaaaaaaaaaaaaaaaaaaaaaaaaaaaaaaaaaaaaaaa" none none
      = (.ok ([[("balance", "9")]].map (convertHolding none)),
          [[("module", "account"), ("action", "addresstokenbalance"),
            ("address", jsTrim "0xaaaaaaaaaaaaaaaaaaaaaaaaaaaaaaaaaaaaaaaa")]]) :=
  ⟨(holdings_balance_fallback).1 none _ |>.1 (by decide) (by decide),
   (holdings_balance_fallback).1 none _ |>.2.1 "7" (by decide),
   (holdings_balance_fallback).1 none _ |>.2.2 "9" (by decide) (by decide),
   (holdings_balance_fallback).2.1 _ _ _ none (by decide) rfl⟩

/-- C10: `getTokenInfo` returns `none` (not an error) on an empty result
array and on an empty-tolerated absent result, and falls back to the queried
trimmed address when the first record has no `contractAddress` key. -/
theorem getTokenInfo_empty_and_fallback (tr : Transport (Option (List RawRecord)))
    (contractAddress : String) (h : isValidAddress (jsTrim contractAddress) = true) :
    (∀ m, tr [("module", "token"), ("action", "tokeninfo"),
          ("contractaddress", jsTrim contractAddress)] = .success ⟨"1", m, some []⟩ →
        getTokenInfo tr contractAddress
          = (.ok none, [[("module", "token"), ("action", "tokeninfo"),
              ("contractaddress", jsTrim contractAddress)]]))
    ∧ (∀ msg, tr [("module", "token"), ("action", "tokeninfo"),
          ("contractaddress", jsTrim contractAddress)] = .success ⟨"0", some msg, none⟩ →
        (jsToLower msg = "no records found" ∨ jsToLower msg = "no transactions found") →
        getTokenInfo tr contractAddress
          = (.ok none, [[("module", "token"), ("action", "tokeninfo"),
              ("contractaddress", jsTrim contractAddress)]]))
    ∧ (∀ m (first : RawRecord) (rest : List RawRecord),
        tr [("module", "token"), ("action", "tokeninfo"),
          ("contractaddress", jsTrim contractAddress)] = .success ⟨"1", m, some (first :: rest)⟩ →
        first.lookup ("contractAddress") = none →
        ∃ info, (getTokenInfo tr contractAddress).fst = .ok (some info)
          ∧ info.contractAddress = jsTrim contractAddress) := by
  refine ⟨?_, ?_, ?_⟩
  · intro m htr
    simp only [getTokenInfo, requireAddress_valid contractAddress h, htr, request_status_one]
    rfl
  · intro msg htr hs
    simp only [getTokenInfo, requireAddress_valid contractAddress h, htr,
      request_allowZero_of_empty _ _ (sentinel_isEmptyResult "0" msg none hs)]
    rfl
  · intro m first rest htr hlook
    simp only [getTokenInfo, requireAddress_valid contractAddress h, htr, request_status_one]
    exact ⟨_, rfl, by simp [hlook]⟩

/-- Witness for C10: empty array, absent tolerated result, and a first record
with no `contractAddress` key, at a concrete valid address. -/
theorem getTokenInfo_empty_and_fallback_witness :
    getTokenInfo (fun _ => .success ⟨"1", none, some []⟩)
        "0xaaaaaaaaaaaaaaaaaaaaaaaaaaaaaaaaaaaaaaaa"
      = (.ok none, [[("module", "token"), ("action", "tokeninfo"),
          ("contractaddress", jsTrim "0xaaaaaaaaaaaaaaaaaaaaaaaaaaaaaaaaaaaaaaaa")]])
    ∧ getTokenInfo (fun _ => .success ⟨"0", some "No records found", none⟩)
        "0xaaaaaaaaaaaaaaaaaaaaaaaaaaaaaaaaaaaaaaaa"
      = (.ok none, [[("module", "token"), ("action", "tokeninfo"),
          ("contractaddress", jsTrim "0xaaaaaaaaaaaaaaaaaaaaaaaaaaaaaaaaaaaaaaaa")]])
    ∧ ∃ info, (getTokenInfo (fun _ => .success ⟨"1", none, some [[("name", "T")]]⟩)
        "0xaaaaaaaaaaaaaaaaaaaaaaaaaaaaaaaaaaaaaaaa").fst = .ok (some info)
        ∧ info.contractAddress = jsTrim "0xaaaaaaaaaaaaaaaaaaaaaaaaaaaaaaaaaaaaaaaa" :=
  ⟨(getTokenInfo_empty_and_fallback _ _ (by decide)).1 none rfl,
   (getTokenInfo_empty_and_fallback _ _ (by decide)).2.1 "No records found" rfl
     (Or.inl (by decide)),
   (getTokenInfo_empty_and_fallback _ _ (by decide)).2.2 none [("name", "T")] [] rfl
     (by decide)⟩

/-- C6: in the composite token resource read, a token-supply failure is
swallowed (supply reported as null) exactly when it is classified API_ERROR;
a supply failure of any other classification, and any token-info failure,
aborts the whole read. -/
theorem tokenResourceRead_failure_policy (trInfo : Transport (Option (List RawRecord)))
    (trSupply : Transport String) (address : String) :
    (∀ e info, (getTokenSupply trSupply address).fst = .error e →
        e.code = PlasmaScanErrorCode.API_ERROR →
        (getTokenInfo trInfo address).fst = .ok info →
        tokenResourceRead trInfo trSupply address = .ok (buildTokenPayload address info none))
    ∧ (∀ e, (getTokenSupply trSupply address).fst = .error e →
        ¬ e.code = PlasmaScanErrorCode.API_ERROR →
        ∃ e2, tokenResourceRead trInfo trSupply address = .error e2)
    ∧ (∀ e, (getTokenInfo trInfo address).fst = .error e →
        ∃ e2, tokenResourceRead trInfo trSupply address = .error e2) := by
  refine ⟨?_, ?_, ?_⟩
  · intro e info hsup hcode hinfo
    unfold tokenResourceRead
    rw [hsup, hinfo]
    simp only [swallowSupplyFailure]
    rw [if_pos hcode]
    rfl
  · intro e hsup hcode
    unfold tokenResourceRead
    rw [hsup]
    simp only [swallowSupplyFailure]
    rw [if_neg hcode]
    cases hinfo : (getTokenInfo trInfo address).fst with
    | error e1 => exact ⟨e1, rfl⟩
    | ok info => exact ⟨e, rfl⟩
  · intro e hinfo
    unfold tokenResourceRead
    rw [hinfo]
    cases hsw : swallowSupplyFailure (getTokenSupply trSupply address).fst with
    | error e2 => exact ⟨e, rfl⟩
    | ok supply => exact ⟨e, rfl⟩

/-- Witness for C6: an API_ERROR supply failure is swallowed into a null
supply; an HTTP_ERROR supply failure aborts the read. -/
theorem tokenResourceRead_failure_policy_witness :
    tokenResourceRead (fun _ => .success ⟨"1", none, some []⟩)
        (fun _ => .success ⟨"0", some "boom", ""⟩)
        "0xaaaaaaaaaaaaaaaaaaaaaaaaaaaaaaaaaaaaaaaa"
      = .ok (buildTokenPayload "0xaaaaaaaaaaaaaaaaaaaaaaaaaaaaaaaaaaaaaaaa" none none)
    ∧ ∃ e2, tokenResourceRead (fun _ => .success ⟨"1", none, some []⟩)
        (fun _ => .httpError 500 "ISE") "0xaaaaaaaaaaaaaaaaaaaaaaaaaaaaaaaaaaaaaaaa"
      = .error e2 :=
  ⟨(tokenResourceRead_failure_policy _ _ _).1
      ⟨"boom", .API_ERROR, some .payloadDetails⟩ none rfl rfl rfl,
   (tokenResourceRead_failure_policy _ _ _).2.1
      ⟨("HTTP error " ++ toString 500 ++ " while calling PlasmaScan"), .HTTP_ERROR,
        some (.httpInfo 500 "ISE")⟩ rfl (by decide)⟩

/-- The unverified-contract branch of `parseAbi`: text containing
"not verified" (any case) fails UNVERIFIED_CONTRACT for every JSON parser. -/
theorem parseAbi_unverified {A : Type} (jsonParse : String → Except String A)
    (rawAbi address : String) (hcont : containsNotVerifiedCI rawAbi = true) :
    parseAbi jsonParse rawAbi address
      = .error ⟨("Contract " ++ address ++ " is not verified"), .UNVERIFIED_CONTRACT,
          some (.rawText rawAbi)⟩ := by
  have hcont' := containsNotVerifiedCI_jsTrim rawAbi hcont
  have hne : ¬ jsTrim rawAbi = "" := jsTrim_ne_empty_of_contains rawAbi hcont'
  have hbe : (jsTrim rawAbi == "") = false := by
    rw [beq_eq_false_iff_ne]; exact hne
  simp [parseAbi, hbe, hcont']

/-- The parse-failure branch of `parseAbi`: text non-empty after trimming,
free of "not verified", and rejected by the JSON parser fails
INVALID_RESPONSE with the parse failure as details. -/
theorem parseAbi_parse_failure {A : Type} (jsonParse : String → Except String A)
    (rawAbi address msg : String) (hne : ¬ jsTrim rawAbi = "")
    (hcont : containsNotVerifiedCI rawAbi = false)
    (hp : jsonParse (jsTrim rawAbi) = .error msg) :
    parseAbi jsonParse rawAbi address
      = .error ⟨("Failed to parse ABI for " ++ address), .INVALID_RESPONSE,
          some (.parseFailure msg)⟩ := by
  have hbe : (jsTrim rawAbi == "") = false := by
    rw [beq_eq_false_iff_ne]; exact hne
  have hct : containsNotVerifiedCI (jsTrim rawAbi) = false := by
    cases hc : containsNotVerifiedCI (jsTrim rawAbi) with
    | false => rfl
    | true => rw [containsNotVerifiedCI_of_trim rawAbi hc] at hcont; cases hcont
  simp [parseAbi, hbe, hct, hp]

/-- C5 counterexample: whitespace-only ABI text is a non-empty string that
contains no "not verified" and is rejected by `JSON.parse`, yet the failure
carries no parse-failure details — the empty-ABI branch fires first, so the
claim's "carrying the parse failure as details" fails for it. -/
theorem parseAbi_whitespace_counterexample :
    ¬ (" " : String) = ""
    ∧ containsNotVerifiedCI " " = false
    ∧ (fun (_ : String) => (Except.error "Unexpected end of JSON input" : Except String Unit)) " "
        = .error "Unexpected end of JSON input"
    ∧ parseAbi (fun _ => (Except.error "Unexpected end of JSON input" : Except String Unit))
        " " "0xc"
      = .error ⟨("Empty ABI returned for 0xc"), .INVALID_RESPONSE, none⟩ :=
  ⟨by decide, by decide, rfl, rfl⟩

/-- C5 (amended): ABI text containing "not verified" in any case makes
`parseAbi` and both ABI-consuming operations fail UNVERIFIED_CONTRACT, with
the result independent of the JSON parser (parsing is never consulted); ABI
text that is non-empty after trimming, free of that substring, and rejected
by the JSON parser makes them fail INVALID_RESPONSE carrying the parse
failure as details. -/
theorem parseAbi_classification {A : Type} :
    (∀ (jsonParse : String → Except String A) (rawAbi address : String),
        containsNotVerifiedCI rawAbi = true →
        parseAbi jsonParse rawAbi address
          = .error ⟨("Contract " ++ address ++ " is not verified"), .UNVERIFIED_CONTRACT,
              some (.rawText rawAbi)⟩)
    ∧ (∀ (jsonParse : String → Except String A) (rawAbi address msg : String),
        ¬ jsTrim rawAbi = "" → containsNotVerifiedCI rawAbi = false →
        jsonParse (jsTrim rawAbi) = .error msg →
        parseAbi jsonParse rawAbi address
          = .error ⟨("Failed to parse ABI for " ++ address), .INVALID_RESPONSE,
              some (.parseFailure msg)⟩)
    ∧ (∀ (jsonParse : String → Except String A) (tr : Transport String)
        (address rawAbi : String) (m : Option String),
        isValidAddress (jsTrim address) = true →
        tr [("module", "contract"), ("action", "getabi"), ("address", jsTrim address)]
          = .success ⟨"1", m, rawAbi⟩ →
        (containsNotVerifiedCI rawAbi = true →
          (getContractAbi jsonParse tr address).fst
            = .error ⟨("Contract " ++ jsTrim address ++ " is not verified"),
                .UNVERIFIED_CONTRACT, some (.rawText rawAbi)⟩)
        ∧ (∀ msg, ¬ jsTrim rawAbi = "" → containsNotVerifiedCI rawAbi = false →
            jsonParse (jsTrim rawAbi) = .error msg →
            (getContractAbi jsonParse tr address).fst
              = .error ⟨("Failed to parse ABI for " ++ jsTrim address), .INVALID_RESPONSE,
                  some (.parseFailure msg)⟩))
    ∧ (∀ (jsonParse : String → Except String A)
        (tr : Transport (List ContractSourcePayload))
        (address : String) (first : ContractSourcePayload)
        (rest : List ContractSourcePayload) (m : Option String),
        isValidAddress (jsTrim address) = true →
        tr [("module", "contract"), ("action", "getsourcecode"), ("address", jsTrim address)]
          = .success ⟨"1", m, first :: rest⟩ →
        (containsNotVerifiedCI first.ABI = true →
          (getContractSourceCode jsonParse tr address).fst
            = .error ⟨("Contract " ++ jsTrim address ++ " is not verified"),
                .UNVERIFIED_CONTRACT, some (.rawText first.ABI)⟩)
        ∧ (∀ msg, ¬ jsTrim first.ABI = "" → containsNotVerifiedCI first.ABI = false →
            jsonParse (jsTrim first.ABI) = .error msg →
            (getContractSourceCode jsonParse tr address).fst
              = .error ⟨("Failed to parse ABI for " ++ jsTrim address), .INVALID_RESPONSE,
                  some (.parseFailure msg)⟩)) := by
  refine ⟨?_, ?_, ?_, ?_⟩
  · intro jsonParse rawAbi address hcont
    exact parseAbi_unverified jsonParse rawAbi address hcont
  · intro jsonParse rawAbi address msg hne hcont hp
    exact parseAbi_parse_failure jsonParse rawAbi address msg hne hcont hp
  · intro jsonParse tr address rawAbi m hv htr
    constructor
    · intro hcont
      simp only [getContractAbi, requireAddress_valid address hv, htr, request_status_one,
        parseAbi_unverified jsonParse rawAbi (jsTrim address) hcont]
    · intro msg hne hcont hp
      simp only [getContractAbi, requireAddress_valid address hv, htr, request_status_one,
        parseAbi_parse_failure jsonParse rawAbi (jsTrim address) msg hne hcont hp]
  · intro jsonParse tr address first rest m hv htr
    constructor
    · intro hcont
      simp only [getContractSourceCode, requireAddress_valid address hv, htr,
        request_status_one,
        parseAbi_unverified jsonParse first.ABI (jsTrim address) hcont]
    · intro msg hne hcont hp
      simp only [getContractSourceCode, requireAddress_valid address hv, htr,
        request_status_one,
        parseAbi_parse_failure jsonParse first.ABI (jsTrim address) msg hne hcont hp]

/-- Witness for C5 at concrete inputs: a mixed-case "Not Verified" ABI and a
malformed but verified-looking ABI, both through `getContractAbi`. -/
theorem parseAbi_classification_witness :
    parseAbi (fun _ => (Except.error "bad json" : Except String Unit))
        "Contract source code Not Verified" "0xc"
      = .error ⟨("Contract 0xc is not verified"), .UNVERIFIED_CONTRACT,
          some (.rawText "Contract source code Not Verified")⟩
    ∧ (getContractAbi (fun _ => (Except.error "bad json" : Except String Unit))
        (fun _ => .success ⟨"1", none, "not json"⟩)
        "0xaaaaaaaaaaaaaaaaaaaaaaaaaaaaaaaaaaaaaaaa").fst
      = .error ⟨("Failed to parse ABI for "
            ++ jsTrim "0xaaaaaaaaaaaaaaaaaaaaaaaaaaaaaaaaaaaaaaaa"), .INVALID_RESPONSE,
          some (.parseFailure "bad json")⟩ :=
  ⟨(parseAbi_classification).1 _ "Contract source code Not Verified" "0xc" (by decide),
   ((parseAbi_classification).2.2.1 _ _ "0xaaaaaaaaaaaaaaaaaaaaaaaaaaaaaaaaaaaaaaaa"
      "not json" none (by decide) rfl).2 "bad json" (by decide) (by decide) rfl⟩

/-- C1 counterexample: a whitespace-padded valid address does not match
`^0x[a-fA-F0-9]{40}$`, yet `getTokenSupply` trims it, accepts it, and issues
the request; and `getLogs` treats an empty-string address as absent and
issues the request without failing. -/
theorem address_validation_counterexample :
    isValidAddress " 0xaaaaaaaaaaaaaaaaaaaaaaaaaaaaaaaaaaaaaaaa " = false
    ∧ getTokenSupply (fun _ => .success ⟨"1", none, "77"⟩)
        " 0xaaaaaaaaaaaaaaaaaaaaaaaaaaaaaaaaaaaaaaaa "
      = (.ok ⟨"0xaaaaaaaaaaaaaaaaaaaaaaaaaaaaaaaaaaaaaaaa", "77"⟩,
          [[("module", "stats"), ("action", "tokensupply"),
            ("contractaddress", "0xaaaaaaaaaaaaaaaaaaaaaaaaaaaaaaaaaaaaaaaa")]])
    ∧ isValidAddress "" = false
    ∧ getLogs (fun _ => .success ⟨"1", none, some []⟩) { address := some "" }
      = (.ok [], [[("module", "logs"), ("action", "getLogs")]]) :=
  ⟨by decide, rfl, by decide, rfl⟩

/-- C1 (amended): for every string that is invalid after trimming, each
address-consuming client operation fails with INVALID_RESPONSE and issues no
request — except that `getLogs` treats the empty-string address as absent
(the non-empty invalid case still fails before any request). -/
theorem address_validation_amended (s : String)
    (h : isValidAddress (jsTrim s) = false) :
    (∀ {A : Type} (jsonParse : String → Except String A) (tr : Transport String),
        failsInvalidNoCall (getContractAbi jsonParse tr s) = true)
    ∧ (∀ {A : Type} (jsonParse : String → Except String A)
        (tr : Transport (List ContractSourcePayload)),
        failsInvalidNoCall (getContractSourceCode jsonParse tr s) = true)
    ∧ (∀ (tr : Transport (Option (List ContractCreationInfo))) (addresses : List String),
        s ∈ addresses → failsInvalidNoCall (getContractCreation tr addresses) = true)
    ∧ (∀ (tr : Transport (Option (List ContractLogPayload))) (filter : ContractLogFilter),
        filter.address = some s → ¬ s = "" → failsInvalidNoCall (getLogs tr filter) = true)
    ∧ (∀ tr : Transport String, failsInvalidNoCall (getTokenSupply tr s) = true)
    ∧ (∀ (tr : Transport String) (other tag : String),
        failsInvalidNoCall (getTokenBalance tr s other tag) = true)
    ∧ (∀ (tr : Transport String) (other tag : String),
        isValidAddress (jsTrim other) = true →
        failsInvalidNoCall (getTokenBalance tr other s tag) = true)
    ∧ (∀ (tr : Transport (Option (List TokenHolderPayload))) (page offset : Option Int),
        failsInvalidNoCall (getTokenHolderList tr s page offset) = true)
    ∧ (∀ tr : Transport (Option (List RawRecord)),
        failsInvalidNoCall (getTokenInfo tr s) = true)
    ∧ (∀ (tr : Transport (Option (List RawRecord))) (page offset : Option Int),
        failsInvalidNoCall (getAddressTokenHoldings tr s page offset) = true)
    ∧ (∀ (tr : Transport (Option (List RawRecord))) (page offset : Option Int),
        failsInvalidNoCall (getAddressNftHoldings tr s page offset) = true)
    ∧ (∀ (tr : Transport (Option (List RawRecord))) (contract : String)
        (page offset : Option Int),
        failsInvalidNoCall (getAddressNftInventory tr s contract page offset) = true)
    ∧ (∀ (tr : Transport (Option (List RawRecord))) (a : String) (page offset : Option Int),
        isValidAddress (jsTrim a) = true →
        failsInvalidNoCall (getAddressNftInventory tr a s page offset) = true) := by
  have herr := requireAddress_invalid s h
  refine ⟨?_, ?_, ?_, ?_, ?_, ?_, ?_, ?_, ?_, ?_, ?_, ?_, ?_⟩
  · intro A jsonParse tr
    simp only [getContractAbi, herr]
    rfl
  · intro A jsonParse tr
    simp only [getContractSourceCode, herr]
    rfl
  · intro tr addresses hmem
    unfold getContractCreation
    have hlen0 : (addresses.length == 0) = false := by
      rw [beq_eq_false_iff_ne]
      intro hl
      rw [List.length_eq_zero] at hl
      subst hl
      cases hmem
    simp only [hlen0, Bool.false_eq_true, if_false]
    by_cases h5 : addresses.length > 5
    · rw [if_pos h5]
      rfl
    · rw [if_neg h5]
      obtain ⟨e, he, hc⟩ := requireAddresses_mem_invalid addresses s hmem h
      rw [he]
      simp [failsInvalidNoCall, hc]
  · intro tr filter haddr hne
    have hbe : (s == "") = false := by
      rw [beq_eq_false_iff_ne]; exact hne
    simp only [getLogs, haddr, hbe, Bool.false_eq_true, if_false, herr]
    rfl
  · intro tr
    simp only [getTokenSupply, herr]
    rfl
  · intro tr other tag
    simp only [getTokenBalance, herr]
    rfl
  · intro tr other tag hother
    simp only [getTokenBalance, requireAddress_valid other hother, herr]
    rfl
  · intro tr page offset
    simp only [getTokenHolderList, herr]
    rfl
  · intro tr
    simp only [getTokenInfo, herr]
    rfl
  · intro tr page offset
    simp only [getAddressTokenHoldings, herr]
    rfl
  · intro tr page offset
    simp only [getAddressNftHoldings, herr]
    rfl
  · intro tr contract page offset
    simp only [getAddressNftInventory, herr]
    rfl
  · intro tr a page offset hother
    simp only [getAddressNftInventory, requireAddress_valid a hother, herr]
    rfl

/-- Witness for C1 (amended) at the invalid string "zzz". -/
theorem address_validation_amended_witness :
    failsInvalidNoCall (getContractAbi (fun t => (Except.ok t : Except String String))
        (fun _ => .success ⟨"1", none, "[]"⟩) "zzz") = true
    ∧ failsInvalidNoCall (getLogs (fun _ => .success ⟨"1", none, some []⟩)
        { address := some "zzz" }) = true
    ∧ failsInvalidNoCall (getTokenSupply (fun _ => .success ⟨"1", none, "1"⟩) "zzz") = true :=
  ⟨(address_validation_amended "zzz" (by decide)).1 _ _,
   (address_validation_amended "zzz" (by decide)).2.2.2.1 _ _ rfl (by decide),
   (address_validation_amended "zzz" (by decide)).2.2.2.2.1 _⟩

/-- C2 counterexample: the client's `getLogs` does not validate topics — a
non-null topic that matches no hash pattern is forwarded verbatim as
`topic0` and the request is issued; and a whitespace-padded valid hash does
not match `^0x[a-fA-F0-9]{64}$` yet is trimmed, accepted, and sent. -/
theorem txhash_validation_counterexample :
    isValidTxHash "nothex" = false
    ∧ getLogs (fun _ => .success ⟨"1", none, some []⟩) { topics := some [some "nothex"] }
      = (.ok [], [[("module", "logs"), ("action", "getLogs"), ("topic0", "nothex")]])
    ∧ isValidTxHash " 0xaaaaaaaaaaaaaaaaaaaaaaaaaaaaaaaaaaaaaaaaaaaaaaaaaaaaaaaaaaaaaaaa " = false
    ∧ getTransactionStatus (fun _ => .success ⟨"1", none, ⟨"1", none⟩⟩) " 0xaaaaaaaaaaaaaaaaaaaaaaaaaaaaaaaaaaaaaaaaaaaaaaaaaaaaaaaaaaaaaaaa "
      = (.ok ⟨"1", none⟩,
          [[("module", "transaction"), ("action", "getstatus"), ("txhash", "0xaaaaaaaaaaaaaaaaaaaaaaaaaaaaaaaaaaaaaaaaaaaaaaaaaaaaaaaaaaaaaaaa")]]) :=
  ⟨by decide, rfl, by decide, rfl⟩

/-- C2 (amended): for every string that is invalid after trimming, the two
transaction-hash operations fail with INVALID_RESPONSE and issue no request;
the client's `getLogs` performs no topic validation — each non-null topic at
position `i` is forwarded verbatim as the `topic{i}` parameter of the single
issued request. -/
theorem txhash_validation_amended (s : String) (h : isValidTxHash (jsTrim s) = false) :
    (∀ tr : Transport TransactionStatusPayload,
        failsInvalidNoCall (getTransactionStatus tr s) = true)
    ∧ (∀ tr : Transport TransactionReceiptStatusPayload,
        failsInvalidNoCall (getTransactionReceiptStatus tr s) = true)
    ∧ (∀ (tr : Transport (Option (List ContractLogPayload))) (ts : List (Option String))
        (i : Nat) (fromBlock toBlock page offset : Option Int),
        ts[i]? = some (some s) →
        (getLogs tr ⟨none, fromBlock, toBlock, some ts, page, offset⟩).snd
          = [[("module", "logs"), ("action", "getLogs")]
              ++ numberParam ("fromBlock") fromBlock ++ numberParam ("toBlock") toBlock
              ++ numberParam ("page") page ++ numberParam ("offset") offset
              ++ topicParams ts 0]
        ∧ (("topic" ++ toString i), s) ∈ ([("module", "logs"), ("action", "getLogs")]
              ++ numberParam ("fromBlock") fromBlock ++ numberParam ("toBlock") toBlock
              ++ numberParam ("page") page ++ numberParam ("offset") offset
              ++ topicParams ts 0)) := by
  have herr := requireTxHash_invalid s h
  refine ⟨?_, ?_, ?_⟩
  · intro tr
    simp only [getTransactionStatus, herr]
    rfl
  · intro tr
    simp only [getTransactionReceiptStatus, herr]
    rfl
  · intro tr ts i fromBlock toBlock page offset hts
    have hlen : (ts.length == 0) = false := by
      rw [beq_eq_false_iff_ne]
      intro hl
      rw [List.length_eq_zero] at hl
      subst hl
      simp at hts
    constructor
    · simp only [getLogs, hlen, Bool.false_eq_true, if_false, List.append_nil]
      cases hreq : request (fun _ => none)
          (tr ([("module", "logs"), ("action", "getLogs")]
            ++ numberParam ("fromBlock") fromBlock ++ numberParam ("toBlock") toBlock
            ++ numberParam ("page") page ++ numberParam ("offset") offset
            ++ topicParams ts 0)) true with
      | error e => rfl
      | ok r =>
        cases r with
        | none => rfl
        | some entries => rfl
    · refine List.mem_append_right _ ?_
      have := topicParams_mem ts i 0 s hts
      simpa using this

/-- Witness for C2 (amended): the invalid string "zzz" as transaction hash
and as a topic. -/
theorem txhash_validation_amended_witness :
    failsInvalidNoCall (getTransactionStatus
        (fun _ => .success ⟨"1", none, ⟨"1", none⟩⟩) "zzz") = true
    ∧ ((getLogs (fun _ => .success ⟨"1", none, some []⟩)
          ⟨none, none, none, some [some "zzz"], none, none⟩).snd
        = [[("module", "logs"), ("action", "getLogs")]
            ++ numberParam ("fromBlock") none ++ numberParam ("toBlock") none
            ++ numberParam ("page") none ++ numberParam ("offset") none
            ++ topicParams [some "zzz"] 0]
        ∧ (("topic" ++ toString 0), "zzz") ∈ ([("module", "logs"), ("action", "getLogs")]
            ++ numberParam ("fromBlock") none ++ numberParam ("toBlock") none
            ++ numberParam ("page") none ++ numberParam ("offset") none
            ++ topicParams [some "zzz"] 0)) :=
  ⟨(txhash_validation_amended "zzz" (by decide)).1 _,
   (txhash_validation_amended "zzz" (by decide)).2.2 _ [some "zzz"] 0 none none none none rfl⟩
